import Mathlib

/-!
# Shallow embedding of `src/framework/calico_framework.py`

The core of the repository is the per-agent installation state machine
(`Agent.handle_offer`, `Agent.handle_update`) and the cluster-level restart
admission policy (`CalicoScheduler.can_restart`).  This file embeds that code
and settles the specification claims against it.

The `tasks` module (the six task classes) is not part of the sources; the Task
capability is therefore modelled from the specification of its contract
(persistence class, run state derived from the most recent status update,
offer-acceptance predicate, restart-required signal).  All control flow below
is translated from `calico_framework.py` itself.

Python-level behaviour that matters for faithfulness:

* `Agent.tasks` is a dict keyed by the task-type NAME strings
  (`{cls.name: None for cls in TASK_CLASSES}`, line 66).  Task types are in
  bijection with their names, so the map is embedded as a function from the
  task-type enumeration to `Option Task`.
* Lines 170, 171, 178 and 179 of `handle_offer` index this name-keyed dict
  with the class objects themselves (`self.tasks[TaskInstallNetmodules]`).
  Those keys are never present, so evaluating line 170 always raises
  `KeyError`; every line from 172 to 198 is unreachable.  The embedding
  returns `Except.error PyError.keyError` at that point.
* Line 292 of `handle_update` writes `self.tasks[TaskInstallDockerClusterStore]
  = None` under the class object as key.  No read path ever consults a
  class-object key (line 170 raises before lines 171/178/179 could), so in the
  name-keyed projection this write is a no-op and the tracked cluster-store
  instance is left intact.
* `CalicoScheduler.can_restart` iterates `self.agents` (a dict, hence its
  keys: agent-id strings, which have no `restarting` attribute) and reads
  `self.max_num_concurrent_restart`, an attribute never assigned
  (`__init__` assigns `max_concurrent_restart`); both raise `AttributeError`.
-/

namespace Calico

/-- The six task classes of `TASK_CLASSES` (lines 55-57).  The names are in
bijection with the `name` strings that key the per-agent task dict. -/
inductive TaskClass
  | TaskRunEtcdProxy
  | TaskInstallNetmodules
  | TaskInstallDockerClusterStore
  | TaskRestartComponents
  | TaskRunCalicoNode
  | TaskRunCalicoLibnetwork
deriving DecidableEq

/-- Modelled from the spec: the observable run state of a task instance is one
of not-started, running, finished, failed, derived from the most recent status
update applied to the instance. -/
inductive RunState
  | notStarted
  | running
  | finished
  | failed
deriving DecidableEq

/-- Modelled from the spec: the persistence class of each task type.  A
persistent type is a long-running daemon that must always be observed running
(the proxy to the coordination store and the two networking daemons); the
install and restart types are one-shot actions. -/
def TaskClass.persistent : TaskClass → Bool
  | TaskClass.TaskRunEtcdProxy => true
  | TaskClass.TaskRunCalicoNode => true
  | TaskClass.TaskRunCalicoLibnetwork => true
  | _ => false

/-- Modelled from the spec: a Task instance.  `restartReq` backs the
restart-required signal of the most recent run; `restartAgentArg` and
`restartDockerArg` record the keyword arguments passed when a restart task is
constructed (line 177-179 call pattern). -/
structure Task where
  cls : TaskClass
  state : RunState
  restartReq : Bool
  restartAgentArg : Bool
  restartDockerArg : Bool
deriving DecidableEq

def Task.running (t : Task) : Bool := t.state == RunState.running

def Task.finished (t : Task) : Bool := t.state == RunState.finished

def Task.failed (t : Task) : Bool := t.state == RunState.failed

/-- The persistence flag is a class attribute, read through the instance. -/
def Task.persistent (t : Task) : Bool := t.cls.persistent

/-- Modelled from the spec: `restart_required()` is meaningful only for the
two installation-configuration task types and defaults to false for the
others. -/
def Task.restart_required (t : Task) : Bool :=
  match t.cls with
  | TaskClass.TaskInstallNetmodules => t.restartReq
  | TaskClass.TaskInstallDockerClusterStore => t.restartReq
  | _ => false

/-- Modelled from the spec: a status update identifies a previously launched
task instance by a composite identifier embedding the task-type name
(`Task.name_from_task_id` decodes it, line 271); the embedding carries the
decoded type directly, together with the new run state and the
restart-required observation of the run it reports. -/
structure StatusUpdate where
  name : TaskClass
  newState : RunState
  newRestartReq : Bool
deriving DecidableEq

/-- Modelled from the spec: applying a status update mutates the addressed
instance, whose run state is derived from the most recent update. -/
def Task.update (t : Task) (u : StatusUpdate) : Task :=
  { t with state := u.newState, restartReq := u.newRestartReq }

/-- Modelled from the spec: an offer is consumed only through the per-type
offer-acceptance predicate, so it is abstracted to that predicate. -/
structure Offer where
  accepts : TaskClass → Bool

/-- `task_class.can_accept_offer(offer)` (used at line 222). -/
def can_accept_offer (cls : TaskClass) (offer : Offer) : Bool :=
  offer.accepts cls

/-- Modelled from the spec: constructing a fresh instance of a task type
(`task_class(self, *args, **kwargs)`, line 207): run state not-started, no
restart-required observation yet. -/
def mkTask (cls : TaskClass) (restart_agent restart_docker : Bool) : Task :=
  { cls := cls, state := RunState.notStarted, restartReq := false,
    restartAgentArg := restart_agent, restartDockerArg := restart_docker }

/-- Python exceptions that the embedded code can raise. -/
inductive PyError
  | keyError
  | attributeError
deriving DecidableEq

/-- `Agent.__init__` state (lines 60-76): the agent id, the name-keyed task
dict (every type initially `None`), and the `restarting` flag (initially
`False`). -/
structure Agent where
  agent_id : String
  tasks : TaskClass → Option Task
  restarting : Bool

/-- `Agent.__init__` (lines 60-76). -/
def Agent.init (agent_id : String) : Agent :=
  { agent_id := agent_id, tasks := fun _ => none, restarting := false }

/-- `Agent.new_task` (lines 200-209): construct the instance, overwrite the
tracked instance for that type, return it. -/
def Agent.new_task (a : Agent) (cls : TaskClass) (restart_agent restart_docker : Bool) :
    Task × Agent :=
  (mkTask cls restart_agent restart_docker,
   { a with tasks := fun c =>
       if c = cls then some (mkTask cls restart_agent restart_docker) else a.tasks c })

/-- `Agent.task_needs_scheduling` (lines 224-239). -/
def Agent.task_needs_scheduling (a : Agent) (cls : TaskClass) : Bool :=
  match a.tasks cls with
  | none => true
  | some task => if task.persistent then !task.running else task.failed

/-- `Agent.task_can_be_offered` (lines 211-222). -/
def Agent.task_can_be_offered (a : Agent) (cls : TaskClass) (offer : Offer) : Bool :=
  a.task_needs_scheduling cls && can_accept_offer cls offer

/-- `Agent.task_running` (lines 241-250). -/
def Agent.task_running (a : Agent) (cls : TaskClass) : Bool :=
  match a.tasks cls with
  | none => false
  | some task => task.running

/-- `Agent.task_finished` (lines 252-261). -/
def Agent.task_finished (a : Agent) (cls : TaskClass) : Bool :=
  match a.tasks cls with
  | none => false
  | some task => task.finished

/-- `Agent.handle_offer` (lines 81-198), translated clause by clause:

* line 131: etcd proxy can be offered, launch it;
* line 136: netmodules install can be offered, launch it;
* line 142: `if self.task_running(TaskRunEtcdProxy): return None` — as
  written, the method stalls when the etcd proxy IS observed running (the
  adjacent comment says it is waiting for the proxy to come online);
* line 147: cluster-store install can be offered, launch it;
* lines 153, 159: stall until both installs are finished;
* lines 169-171: `self.tasks[TaskInstallNetmodules].restart_required() or
  self.tasks[TaskInstallDockerClusterStore].restart_required()` indexes the
  name-keyed dict with class objects; the left operand is evaluated first and
  its key is never present, so this raises `KeyError` unconditionally, making
  lines 172-198 (restarting reset, restart launch, node and libnetwork launch)
  unreachable. -/
def Agent.handle_offer (a : Agent) (offer : Offer) :
    Except PyError (Option Task × Agent) :=
  if a.task_can_be_offered TaskClass.TaskRunEtcdProxy offer then
    Except.ok (some (a.new_task TaskClass.TaskRunEtcdProxy false false).1,
               (a.new_task TaskClass.TaskRunEtcdProxy false false).2)
  else if a.task_can_be_offered TaskClass.TaskInstallNetmodules offer then
    Except.ok (some (a.new_task TaskClass.TaskInstallNetmodules false false).1,
               (a.new_task TaskClass.TaskInstallNetmodules false false).2)
  else if a.task_running TaskClass.TaskRunEtcdProxy then
    Except.ok (none, a)
  else if a.task_can_be_offered TaskClass.TaskInstallDockerClusterStore offer then
    Except.ok (some (a.new_task TaskClass.TaskInstallDockerClusterStore false false).1,
               (a.new_task TaskClass.TaskInstallDockerClusterStore false false).2)
  else if !(a.task_finished TaskClass.TaskInstallNetmodules) then
    Except.ok (none, a)
  else if !(a.task_finished TaskClass.TaskInstallDockerClusterStore) then
    Except.ok (none, a)
  else
    Except.error PyError.keyError

/-- `Agent.handle_update` (lines 263-292): decode the task-type name; if no
instance is tracked, create one via `new_task` (lines 277-279); apply the
update to the instance (line 280, an in-place mutation, embedded as storing
the updated instance under its name); if the update addresses the restart
task and the task is not running afterwards, clear the tracked netmodules
instance (line 291).  Line 292 writes under the class-object key
`TaskInstallDockerClusterStore`, which no read path consults, so the
cluster-store entry of the name-keyed map is untouched. -/
def Agent.handle_update (a : Agent) (u : StatusUpdate) : Agent :=
  let p : Task × Agent :=
    match a.tasks u.name with
    | some t => (t, a)
    | none => a.new_task u.name false false
  let task := Task.update p.1 u
  let a1 : Agent :=
    { p.2 with tasks := fun c => if c = u.name then some task else p.2.tasks c }
  if u.name = TaskClass.TaskRestartComponents ∧ task.running = false then
    { a1 with tasks := fun c =>
        if c = TaskClass.TaskInstallNetmodules then none else a1.tasks c }
  else a1

/-- `CalicoScheduler.__init__` (lines 296-298): the agents dict (embedded as
an association list from agent id to agent) and the configured cap, assigned
to the attribute `max_concurrent_restart`. -/
structure CalicoScheduler where
  agents : List (String × Agent)
  max_concurrent_restart : Nat

/-- Reading `self.max_num_concurrent_restart` (line 311): `__init__` assigns
`self.max_concurrent_restart` (line 298), so this attribute never exists and
the read raises `AttributeError`. -/
def CalicoScheduler.max_num_concurrent_restart (_s : CalicoScheduler) :
    Except PyError Nat :=
  Except.error PyError.attributeError

/-- `sum(1 for a in self.agents if a.restarting)` (line 310): iterating a dict
yields its keys, here agent-id strings; a string has no `restarting`
attribute, so the first key raises `AttributeError`; over an empty dict the
sum is 0. -/
def CalicoScheduler.num_restarting (s : CalicoScheduler) : Except PyError Nat :=
  match s.agents with
  | [] => Except.ok 0
  | _ :: _ => Except.error PyError.attributeError

/-- `CalicoScheduler.can_restart` (lines 300-311). -/
def CalicoScheduler.can_restart (s : CalicoScheduler) (agent : Agent) :
    Except PyError Bool :=
  if agent.restarting then
    Except.ok true
  else
    match s.num_restarting with
    | Except.error e => Except.error e
    | Except.ok n =>
      match s.max_num_concurrent_restart with
      | Except.error e => Except.error e
      | Except.ok m => Except.ok (decide (n < m))

/-- `CalicoScheduler.get_agent` (lines 319-330). -/
def CalicoScheduler.get_agent (s : CalicoScheduler) (agent_id : String) :
    Agent × CalicoScheduler :=
  match s.agents.lookup agent_id with
  | some agent => (agent, s)
  | none =>
    (Agent.init agent_id,
     { s with agents := (agent_id, Agent.init agent_id) :: s.agents })

/-- Agent states reachable from a freshly created agent by any sequence of
successfully completing `handle_offer` and `handle_update` calls. -/
inductive ReachableAgent : Agent → Prop
  | init (agent_id : String) : ReachableAgent (Agent.init agent_id)
  | offer {a : Agent} {o : Offer} {res : Option Task} {a' : Agent} :
      ReachableAgent a → Agent.handle_offer a o = Except.ok (res, a') →
      ReachableAgent a'
  | update {a : Agent} (u : StatusUpdate) :
      ReachableAgent a → ReachableAgent (a.handle_update u)

/- ### Concrete inputs used to evaluate the embedded code -/

/-- An offer whose resources satisfy every task type. -/
def offerAll : Offer := { accepts := fun _ => true }

/-- An offer whose resources satisfy no task type. -/
def offerNothing : Offer := { accepts := fun _ => false }

/-- An offer whose resources satisfy exactly one task type. -/
def offerOnly (cls : TaskClass) : Offer := { accepts := fun c => c == cls }

/-- A task instance of a given type with a given state and restart signal. -/
def taskIn (cls : TaskClass) (st : RunState) (req : Bool) : Task :=
  { cls := cls, state := st, restartReq := req,
    restartAgentArg := false, restartDockerArg := false }

/-- Projection of a `handle_offer` outcome to the class of the returned task,
used to state evaluation results without spelling out the successor agent. -/
def offeredTask (r : Except PyError (Option Task × Agent)) :
    Except PyError (Option TaskClass) :=
  match r with
  | Except.error e => Except.error e
  | Except.ok (none, _) => Except.ok none
  | Except.ok (some t, _) => Except.ok (some t.cls)

/-- An agent whose tracked etcd-proxy instance is not running (last observed
failed) and whose netmodules install has finished. -/
def agentEtcdNotRunning : Agent :=
  { agent_id := "agent-c1",
    tasks := fun c =>
      match c with
      | TaskClass.TaskRunEtcdProxy =>
          some (taskIn TaskClass.TaskRunEtcdProxy RunState.failed false)
      | TaskClass.TaskInstallNetmodules =>
          some (taskIn TaskClass.TaskInstallNetmodules RunState.finished false)
      | _ => none,
    restarting := false }

/-- The agent of spec scenario B: etcd proxy running, both installs finished,
no restart required. -/
def agentReadyForNode : Agent :=
  { agent_id := "agent-c2",
    tasks := fun c =>
      match c with
      | TaskClass.TaskRunEtcdProxy =>
          some (taskIn TaskClass.TaskRunEtcdProxy RunState.running false)
      | TaskClass.TaskInstallNetmodules =>
          some (taskIn TaskClass.TaskInstallNetmodules RunState.finished false)
      | TaskClass.TaskInstallDockerClusterStore =>
          some (taskIn TaskClass.TaskInstallDockerClusterStore RunState.finished false)
      | _ => none,
    restarting := false }

/-- The agent of spec scenario C: netmodules install finished and reporting
restart required, cluster-store install finished, no restart task tracked. -/
def agentRestartNeeded : Agent :=
  { agent_id := "agent-c4",
    tasks := fun c =>
      match c with
      | TaskClass.TaskInstallNetmodules =>
          some (taskIn TaskClass.TaskInstallNetmodules RunState.finished true)
      | TaskClass.TaskInstallDockerClusterStore =>
          some (taskIn TaskClass.TaskInstallDockerClusterStore RunState.finished false)
      | _ => none,
    restarting := false }

/-- An agent with both install instances tracked as finished and a restart
task instance tracked as running. -/
def agentRestartPending : Agent :=
  { agent_id := "agent-c3",
    tasks := fun c =>
      match c with
      | TaskClass.TaskInstallNetmodules =>
          some (taskIn TaskClass.TaskInstallNetmodules RunState.finished false)
      | TaskClass.TaskInstallDockerClusterStore =>
          some (taskIn TaskClass.TaskInstallDockerClusterStore RunState.finished false)
      | TaskClass.TaskRestartComponents =>
          some (taskIn TaskClass.TaskRestartComponents RunState.running false)
      | _ => none,
    restarting := false }

/-- A status update reporting that the restart task has finished, so it is no
longer running. -/
def restartDoneUpdate : StatusUpdate :=
  { name := TaskClass.TaskRestartComponents, newState := RunState.finished,
    newRestartReq := false }

/-- A status update addressed to the Calico node task, reporting it running. -/
def nodeRunningUpdate : StatusUpdate :=
  { name := TaskClass.TaskRunCalicoNode, newState := RunState.running,
    newRestartReq := false }

/- ### Helper lemmas -/

/-- Every successful `handle_offer` leaves the restarting flag untouched: the
only assignment to it in the source (line 173) sits in the unreachable region
after the KeyError raised by line 170. -/
theorem handle_offer_ok_restarting (a : Agent) (o : Offer) (res : Option Task) (a' : Agent)
    (h : a.handle_offer o = Except.ok (res, a')) : a'.restarting = a.restarting := by
  unfold Agent.handle_offer at h
  split_ifs at h <;>
    (injection h with h1
     injection h1 with h2 h3
     subst h3
     rfl)

/-- `handle_update` never touches the restarting flag. -/
theorem handle_update_restarting (a : Agent) (u : StatusUpdate) :
    (a.handle_update u).restarting = a.restarting := by
  simp only [Agent.handle_update]
  cases ha : a.tasks u.name <;> simp only [ha] <;> split <;> rfl

/- ### Claim theorems -/

/-- C1: the claimed stall invariant fails on the code.  For the agent whose
tracked etcd-proxy instance is not running, `handle_offer` on an offer that
satisfies only the cluster-store-configuration task does not return none: it
returns the cluster-store task.  Line 142 stalls only when the proxy IS
running, so nothing blocks the downstream cluster-store rung here. -/
theorem etcd_stall_bypassed_eval :
    agentEtcdNotRunning.task_running TaskClass.TaskRunEtcdProxy = false ∧
    offeredTask (agentEtcdNotRunning.handle_offer
        (offerOnly TaskClass.TaskInstallDockerClusterStore))
      = Except.ok (some TaskClass.TaskInstallDockerClusterStore) :=
  ⟨rfl, rfl⟩

/-- C2: scenario B fails on the code.  For the agent with etcd proxy running,
both installs finished and no restart required, `handle_offer` on an offer
satisfying every task returns none instead of the Calico node task, because
line 142 returns none exactly when the etcd-proxy task is observed running. -/
theorem scenario_b_stalls_eval :
    agentReadyForNode.task_running TaskClass.TaskRunEtcdProxy = true ∧
    offeredTask (agentReadyForNode.handle_offer offerAll) = Except.ok none :=
  ⟨rfl, rfl⟩

/-- C3: the restart-completion reset fails on the code.  Delivering the
restart-finished update clears the tracked netmodules instance (line 291) but
leaves the cluster-store instance tracked, because line 292 writes under the
class object instead of the name key; consequently the cluster-store task
still does not need scheduling afterwards. -/
theorem restart_reset_partial_eval :
    (agentRestartPending.handle_update restartDoneUpdate).tasks
        TaskClass.TaskInstallNetmodules = none ∧
    (agentRestartPending.handle_update restartDoneUpdate).tasks
        TaskClass.TaskInstallDockerClusterStore
      = some (taskIn TaskClass.TaskInstallDockerClusterStore RunState.finished false) ∧
    (agentRestartPending.handle_update restartDoneUpdate).task_needs_scheduling
        TaskClass.TaskInstallDockerClusterStore = false :=
  ⟨rfl, rfl, rfl⟩

/-- C4: scenario C fails on the code.  For the agent whose netmodules install
reports restart required, with no restart task tracked, an offer satisfying
the restart task makes `handle_offer` raise KeyError (line 170 indexes the
name-keyed task dict with the class object) instead of returning the restart
task; the restarting flag stays false, and indeed no statement of the source
ever assigns it True. -/
theorem restart_launch_key_error_eval :
    agentRestartNeeded.handle_offer (offerOnly TaskClass.TaskRestartComponents)
      = Except.error PyError.keyError ∧
    agentRestartNeeded.restarting = false :=
  ⟨rfl, rfl⟩

/-- C5: the claimed admission control fails on the code.  For an agent already
flagged restarting, `can_restart` returns True as claimed; for any other agent
it raises AttributeError instead of comparing the count of restarting agents
with the cap, both on an empty and on a nonempty agents dict, because line 311
reads the never-assigned attribute `max_num_concurrent_restart` and line 310
iterates the dict keys (agent-id strings). -/
theorem can_restart_attribute_error_eval :
    CalicoScheduler.can_restart { agents := [], max_concurrent_restart := 1 }
        (Agent.init ("agent-c5")) = Except.error PyError.attributeError ∧
    CalicoScheduler.can_restart
        { agents := [(("agent-x"), Agent.init ("agent-x"))], max_concurrent_restart := 5 }
        (Agent.init ("agent-c5")) = Except.error PyError.attributeError ∧
    CalicoScheduler.can_restart { agents := [], max_concurrent_restart := 1 }
        { Agent.init ("agent-c5") with restarting := true } = Except.ok true :=
  ⟨rfl, rfl, rfl⟩

/-- C6: the claimed ordering invariant fails on the code.  The very first
`handle_offer` call on a freshly created agent, given an offer satisfying only
the cluster-store-configuration task, returns the cluster-store task; so the
first non-none result of a sequence of offers can be the cluster-store task
rather than the etcd-proxy or netmodules task, again because line 142 does not
stall while the etcd proxy is not observed running. -/
theorem fresh_agent_first_task_eval :
    offeredTask ((Agent.init ("agent-c6")).handle_offer
        (offerOnly TaskClass.TaskInstallDockerClusterStore))
      = Except.ok (some TaskClass.TaskInstallDockerClusterStore) :=
  rfl

/-- C7: `task_needs_scheduling` returns true when no instance is tracked for
the type; otherwise, for a persistent instance it returns true exactly when
the instance is not running, and for a non-persistent instance exactly when
the instance has failed. -/
theorem task_needs_scheduling_spec (a : Agent) (cls : TaskClass) :
    (a.tasks cls = none → a.task_needs_scheduling cls = true) ∧
    (∀ t, a.tasks cls = some t →
      ((t.persistent = true → (a.task_needs_scheduling cls = true ↔ t.running = false)) ∧
       (t.persistent = false → (a.task_needs_scheduling cls = true ↔ t.failed = true)))) := by
  constructor
  · intro h
    simp only [Agent.task_needs_scheduling, h]
  · intro t ht
    simp only [Agent.task_needs_scheduling, ht]
    constructor
    · intro hp
      rw [hp]
      cases t.running <;> simp
    · intro hp
      rw [hp]
      simp

/-- Witness for the C7 theorem: a fresh agent tracks no etcd-proxy instance,
so that task type needs scheduling. -/
theorem task_needs_scheduling_spec_witness :
    (Agent.init ("agent-w7")).task_needs_scheduling TaskClass.TaskRunEtcdProxy = true :=
  (task_needs_scheduling_spec (Agent.init ("agent-w7")) TaskClass.TaskRunEtcdProxy).1 rfl

/-- C8: when a status update addresses a task type with no tracked instance,
`handle_update` creates a fresh instance of that type and applies the update
to it, storing the result in the tasks mapping; the update is neither dropped
nor does processing fail. -/
theorem handle_update_untracked_creates (a : Agent) (u : StatusUpdate)
    (h : a.tasks u.name = none) :
    (a.handle_update u).tasks u.name
      = some (Task.update (mkTask u.name false false) u) := by
  simp only [Agent.handle_update, h, Agent.new_task]
  split
  · rename_i hcond
    simp [hcond.1]
  · simp

/-- Witness for the C8 theorem: an update for the untracked Calico node task
creates and updates a fresh instance. -/
theorem handle_update_untracked_creates_witness :
    ((Agent.init ("agent-w8")).handle_update nodeRunningUpdate).tasks nodeRunningUpdate.name
      = some (Task.update (mkTask nodeRunningUpdate.name false false) nodeRunningUpdate) :=
  handle_update_untracked_creates (Agent.init ("agent-w8")) nodeRunningUpdate rfl

/-- C9: whenever `handle_offer` returns none, the agent state is completely
unchanged (tasks mapping and restarting flag included), and repeating the same
call with no intervening update returns none again. -/
theorem handle_offer_none_frame (a : Agent) (o : Offer) (a' : Agent)
    (h : a.handle_offer o = Except.ok (none, a')) :
    a' = a ∧ a'.handle_offer o = Except.ok (none, a') := by
  have ha : a' = a := by
    unfold Agent.handle_offer at h
    split_ifs at h <;>
      (injection h with h1
       injection h1 with h2 h3
       first
       | exact h3.symm
       | cases h2)
  constructor
  · exact ha
  · rw [ha] at h ⊢
    exact h

/-- Witness for the C9 theorem: a fresh agent given an offer satisfying no
task stalls, is unchanged, and stalls again. -/
theorem handle_offer_none_frame_witness :
    Agent.init ("agent-w9") = Agent.init ("agent-w9") ∧
    (Agent.init ("agent-w9")).handle_offer offerNothing
      = Except.ok (none, Agent.init ("agent-w9")) :=
  handle_offer_none_frame (Agent.init ("agent-w9")) offerNothing (Agent.init ("agent-w9")) rfl

/-- C10: the restarting flag of every agent reachable by any sequence of
`handle_offer` and `handle_update` calls is false (it starts false and no
reachable statement assigns True), and hence the number of restarting agents
in any collection of reachable agents is zero. -/
theorem restarting_always_false :
    (∀ a : Agent, ReachableAgent a → a.restarting = false) ∧
    (∀ l : List Agent, (∀ a ∈ l, ReachableAgent a) →
      l.countP (fun a => a.restarting) = 0) := by
  have key : ∀ a : Agent, ReachableAgent a → a.restarting = false := by
    intro a h
    induction h with
    | init agent_id => rfl
    | offer hr heq ih => rw [handle_offer_ok_restarting _ _ _ _ heq]; exact ih
    | update u hr ih => rw [handle_update_restarting]; exact ih
  refine ⟨key, ?_⟩
  intro l hl
  induction l with
  | nil => rfl
  | cons x xs ih =>
    have hx : x.restarting = false := key x (hl x (List.mem_cons_self x xs))
    have hxs : xs.countP (fun a => a.restarting) = 0 :=
      ih (fun a ha => hl a (List.mem_cons_of_mem x ha))
    simp [List.countP_cons, hx, hxs]

/-- Witness for the C10 theorem: a freshly created agent is reachable and its
restarting flag is false. -/
theorem restarting_always_false_witness :
    (Agent.init ("agent-w10")).restarting = false :=
  restarting_always_false.1 (Agent.init ("agent-w10")) (ReachableAgent.init ("agent-w10"))

end Calico
